/-
Verification development for the `pymol_viridis` plugin
(`viridispalettes.py`).

The plugin wraps host-owned callables of the PyMOL host:
  * `patch_spectrum` / `unpatch_spectrum` wrap the `cmd.spectrum`
    command slot, injecting a default palette;
  * `viridis` is a new command forwarding to `cmd.spectrum`;
  * `add_palettes` installs palette strings into the host registry
    `viewing.palette_colors_dict`;
  * `_by_chain_patch`, `_mol_color_patch`, `_color_auto_patch` wrap the
    three menu-builder slots of `pymol.menu`;
  * `add_viridis_menus` / `remove_viridis_menus` drive the capture /
    restore lifecycle guarded by `menu.has_viridis_menus`.

The shallow embedding below models:
  * python strings as `String`, lists as `List`;
  * keyword-argument dicts as association lists `List (String × String)`
    with insertion-order update semantics (`dictSet`);
  * the host registry `viewing.palette_colors_dict` as a map
    `String → Option String`;
  * menu entries (python `[kind, label, action-or-submenu]` triples) as
    `Nat × String × Payload`;
  * fallible python code (IndexError on list assignment, unbound local
    variable) as `Except String`;
  * the module-level mutable slots and the host attribute slots as an
    explicit record `PatchState`, with every function slot drawn from a
    symbolic type `Func` so that reference identity is plain equality.
-/
import Mathlib

namespace ViridisPalettes

/-! ## Text colorization (`_colorize_text`, lines 342-373 of the source) -/

/-- The hard-coded 8-color text palette `_viridis8_rgb` of the source. -/
def _viridis8_rgb : List String :=
  ["224", "134", "145", "154", "164", "373", "671", "881"]

/-- The trailing reset escape the source appends (`'\\888'`), called the
reset marker by the documentation. -/
def resetMarker : String := "\\888"

/-- The mutation loop of `_colorize_text`: walk the (already truncated)
color list and the character list in lockstep, prefixing each character
with `\NNN`; on a `'('` character, emit `\888` before it and stop, leaving
the remaining characters untouched.  The second pattern (colors left but
no characters) is unreachable because the caller truncates the color list
to at most the text length. -/
def colorizeGo : List String → List Char → String
  | [], ts => String.mk ts
  | _ :: _, [] => ""
  | c :: cs, t :: ts =>
    if t = '(' then "\\888" ++ String.mk (t :: ts)
    else "\\" ++ c ++ String.mk [t] ++ colorizeGo cs ts

/-- `_colorize_text(text, palette)`: append the reset color `'888'` to the
palette, truncate to `min (len palette + 1) (len text)`, run the prefixing
loop, and append the reset marker.  (The python default argument is
`_viridis8_rgb`; calls through the default are written explicitly here.) -/
def _colorize_text (text : String) (palette : List String) : String :=
  let ts := text.toList
  let pl := (palette ++ ["888"]).take (min (palette.length + 1) ts.length)
  colorizeGo pl ts ++ resetMarker

/-- Number of characters of `ts` that receive an escape-code prefix when
the truncated color list `pl` is walked: one per loop iteration, stopping
after a `'('` character. -/
def loopPref : List String → List Char → Nat
  | [], _ => 0
  | _ :: _, [] => 0
  | _ :: cs, t :: ts => if t = '(' then 1 else 1 + loopPref cs ts

/-- The number of characters of `text` that `_colorize_text` prefixes,
expressed on the same truncated color list the function uses. -/
def prefCount (text : String) (palette : List String) : Nat :=
  loopPref ((palette ++ ["888"]).take (min (palette.length + 1) text.toList.length))
    text.toList

/-! ## Palette installation (`add_palettes`, lines 131-141) -/

/-- Python `str.replace('#', '0x')` specialised to the single-character
pattern `'#'`: every occurrence of `'#'` becomes `"0x"`. -/
def replaceHash (s : String) : String :=
  String.mk (List.flatten (s.toList.map (fun c => if c = '#' then ['0', 'x'] else [c])))

/-- `format_colors(values)` from the source:
`' '.join(values).replace('#', '0x')`. -/
def format_colors (values : List String) : String :=
  replaceHash (String.intercalate " " values)

/-- Modelled from the spec: the static palette table `NEW_PALETTES` is
imported from the repository module `palettes_data`, which is not under
`src/`.  Per the spec it maps each of the six palette names (viridis,
magma, inferno, plasma, cividis, turbo) to an ordered sequence of
`#RRGGBB` color-stop tokens; the concrete stop values below are
representative stops of those published colormaps, and no theorem in this
file depends on the particular RGB values, only on the table's shape
(distinct names, `#`-led tokens). -/
def NEW_PALETTES : List (String × List String) :=
  [("viridis", ["#440154", "#482878", "#3E4989", "#31688E", "#26828E",
                "#1F9E89", "#35B779", "#6DCD59", "#B4DE2C", "#FDE725"]),
   ("magma", ["#000004", "#1D1147", "#51127C", "#822681", "#B63679",
              "#E65164", "#FB8861", "#FEC287", "#FCFDBF"]),
   ("inferno", ["#000004", "#1B0C42", "#4B0C6B", "#781C6D", "#A52C60",
                "#CF4446", "#ED6925", "#FB9A06", "#F7D03C", "#FCFFA4"]),
   ("plasma", ["#0D0887", "#6A00A8", "#B12A90", "#E16462", "#FCA636", "#F0F921"]),
   ("cividis", ["#00204D", "#414D6B", "#7C7B78", "#BCAF6F", "#FFE945"]),
   ("turbo", ["#30123B", "#4662D7", "#36BBCE", "#1AE4B6", "#72FE5E",
              "#C7EF34", "#FABA39", "#F66B19", "#CB2A04", "#7A0403"])]

/-- The loop of `add_palettes`: for each `(pal_name, values)` pair of the
table, assign `viewing.palette_colors_dict[pal_name] = format_colors(values)`
(an unconditional dictionary assignment). -/
def addPalettesLoop (table : List (String × List String))
    (reg : String → Option String) : String → Option String :=
  table.foldl (fun r p => fun k => if k = p.1 then some (format_colors p.2) else r k) reg

/-- `add_palettes()`: run the assignment loop over `NEW_PALETTES` against
the host registry `viewing.palette_colors_dict`. -/
def add_palettes (reg : String → Option String) : String → Option String :=
  addPalettesLoop NEW_PALETTES reg

/-- `_has_viridis_palettes()`: every table key is present in the registry. -/
def _has_viridis_palettes (reg : String → Option String) : Bool :=
  NEW_PALETTES.all (fun p => (reg p.1).isSome)

/-- Spec-side token translation, following the spec's words: a leading
`#` marker on a token is translated to a `0x` marker. -/
def specTranslate (t : String) : String :=
  match t.toList with
  | '#' :: rest => String.mk ('0' :: 'x' :: rest)
  | _ => t

/-- Spec-side formatting, following the spec's words: join the color-stop
tokens, each with its leading `#` translated to `0x`, into a single
space-delimited string. -/
def specFormat (values : List String) : String :=
  String.intercalate " " (values.map specTranslate)

/-! ## Keyword-argument dictionaries -/

/-- Python dictionary assignment `kw[k] = v` on an association list with
unique keys: replace the value in place if the key is present, otherwise
append the new binding at the end (python dicts preserve insertion order). -/
def dictSet (kw : List (String × String)) (k v : String) : List (String × String) :=
  if (kw.lookup k).isSome then kw.map (fun p => if p.1 = k then (p.1, v) else p)
  else kw ++ [(k, v)]

/-! ## The spectrum wrapper and the viridis command (lines 92-128) -/

/-- The argument transformation performed by `spectrum_wrapper` inside
`patch_spectrum`: the pair it forwards to the captured original.  If the
caller supplied fewer than 2 positional arguments and no `palette`
keyword, the keyword `palette='turbo'` is injected; otherwise the
arguments pass through unchanged. -/
def spectrum_wrapper (args : List String) (kwargs : List (String × String)) :
    List String × List (String × String) :=
  if args.length < 2 ∧ kwargs.lookup "palette" = none then
    (args, dictSet kwargs "palette" "turbo")
  else (args, kwargs)

/-- The `viridis(*args, **kwargs)` command: with at least one positional
argument it executes `args_list[1] = 'viridis'`, a list assignment that
raises `IndexError` when only one positional argument is present;
otherwise it sets `kwargs['palette'] = 'viridis'`.  The result is the
argument pair passed on to `cmd.spectrum`. -/
def viridis (args : List String) (kwargs : List (String × String)) :
    Except String (List String × List (String × String)) :=
  if 1 ≤ args.length then
    if 2 ≤ args.length then Except.ok (args.set 1 "viridis", kwargs)
    else Except.error "IndexError: list assignment index out of range"
  else Except.ok (args, dictSet kwargs "palette" "viridis")

/-! ## Menu data model (lines 156-251)

A python menu entry is a triple list `[kind, label, payload]` where the
payload is either an action string or a nested list of entries. -/

/-- The third component of a menu entry: an action string or a submenu. -/
inductive Payload where
  | act : String → Payload
  | sub : List (Nat × String × Payload) → Payload

/-- A menu entry `[kind, label, payload]`. -/
abbrev Entry := Nat × String × Payload

/-- The host `self_cmd` object, abstracted to what the wrapped code reads
from it: `menu.menucontext(self_cmd, sele).props`, the list of user
property keys of the current context. -/
structure SelfCmd where
  props : List String

/-- A host menu-builder slot: `(self_cmd, sele) -> list of entries`. -/
abbrev Builder := SelfCmd → String → List Entry

/-- Python `repr` of a plain string key (no quotes or escapes inside), as
used by `'...%s...' % (repr(key), ...)` in `_viridis_menu`. -/
def pyRepr (s : String) : String := "'" ++ s ++ "'"

/-- `_viridis_menu(self_cmd, sele)`: the static viridis submenu entries,
followed by the per-user-property palette submenus enumerated from the
menu context. -/
def _viridis_menu (self_cmd : SelfCmd) (sele : String) : List Entry :=
  let viridis_col := _colorize_text "viridis" _viridis8_rgb
  let r : List Entry := [
    (2, "Viridis:", Payload.act ""),
    (1, viridis_col ++ "(elem C)",
      Payload.act ("cmd.spectrum(\"count\", \"viridis\", selection=\"(" ++ sele ++ ") & elem C\")")),
    (1, viridis_col ++ "(*/CA)",
      Payload.act ("cmd.spectrum(\"count\", \"viridis\", selection=\"(" ++ sele ++ ") & */CA\")")),
    (1, viridis_col,
      Payload.act ("cmd.spectrum(\"count\", \"viridis\", selection=\"" ++ sele ++ "\", byres=1)")),
    (0, "", Payload.act ""),
    (1, "b-factors",
      Payload.act ("cmd.spectrum(\"b\", \"viridis\", selection=(\"" ++ sele ++ "\"), quiet=0)")),
    (1, "b-factors(*/CA)",
      Payload.act ("cmd.spectrum(\"b\", \"viridis\", selection=\"((" ++ sele ++ ") & */CA)\", quiet=0)")),
    (0, "", Payload.act ""),
    (1, "area (molecular)",
      Payload.act ("util.color_by_area((\"" ++ sele ++ "\"), \"molecular\", palette=\"viridis\")")),
    (1, "area (solvent)",
      Payload.act ("util.color_by_area((\"" ++ sele ++ "\"), \"solvent\", palette=\"viridis\")"))]
  r ++ [
    (0, "", Payload.act ""),
    (1, "user properties", Payload.sub
      ((2, "User Properties:", Payload.act "") :: self_cmd.props.map (fun key =>
        (1, key, Payload.sub
          ((2, "Palette", Payload.act "") :: ["viridis", "blue white red", "green red"].map
            (fun palette =>
              (1, palette, Payload.act
                ("cmd.spectrum(\"properties[" ++ pyRepr key ++ "]\", \"" ++ palette ++
                 "\", \"" ++ sele ++ "\")"))))))))]

/-- `_by_chain_patch(self_cmd, sele)`: reads the module global
`_original_by_chain` (here the explicit parameter `orig`); returns `[]`
when it is cleared, otherwise the original's entries followed by the
viridis by-chain entries. -/
def _by_chain_patch (orig : Option Builder) (self_cmd : SelfCmd) (sele : String) :
    List Entry :=
  let by_chain_col := _colorize_text "by chain" _viridis8_rgb
  let by_segi_col := _colorize_text "by segi " _viridis8_rgb
  let chainbows_col := _colorize_text "chainbows" _viridis8_rgb
  match orig with
  | none => []
  | some f => f self_cmd sele ++ [
      (0, "", Payload.act ""),
      (0, "", Payload.act ""),
      (1, by_chain_col ++ "(elem C)",
        Payload.act ("util.color_chains(\"(" ++ sele ++ " and elem C)\", palette=\"viridis\", _self=cmd)")),
      (1, by_chain_col ++ "(*/CA)",
        Payload.act ("util.color_chains(\"(" ++ sele ++ " and name CA)\", palette=\"viridis\", _self=cmd)")),
      (1, by_chain_col,
        Payload.act ("util.color_chains(\"(" ++ sele ++ ")\", palette=\"viridis\", _self=cmd)")),
      (0, "", Payload.act ""),
      (1, chainbows_col,
        Payload.act ("util.chainbow(\"(" ++ sele ++ ")\", palette=\"viridis\", _self=cmd)")),
      (0, "", Payload.act ""),
      (1, by_segi_col ++ "(elem C)",
        Payload.act ("cmd.spectrum(\"segi\", \"viridis\", \"(" ++ sele ++ ") & elem C\")")),
      (1, by_segi_col,
        Payload.act ("cmd.spectrum(\"segi\", \"viridis\", \"" ++ sele ++ "\")"))]

/-- `_color_auto_patch(self_cmd, sele)`: `[]` when the captured original
is cleared, otherwise the original's entries followed by the viridis
by-object entries (the selection texts are as in the source, including
its swap of the `elem C` selection onto the plain `by obj` label). -/
def _color_auto_patch (orig : Option Builder) (self_cmd : SelfCmd) (sele : String) :
    List Entry :=
  let by_obj_col := _colorize_text "by obj" _viridis8_rgb
  let by_obj_c_col := _colorize_text "by obj(elem C)" _viridis8_rgb
  let _chainbows_col := _colorize_text "chainbows" _viridis8_rgb
  match orig with
  | none => []
  | some f => f self_cmd sele ++ [
      (0, "", Payload.act ""),
      (1, by_obj_col,
        Payload.act ("util.color_objs(\"(" ++ sele ++ " and elem C)\", palette=\"viridis\", _self=cmd)")),
      (1, by_obj_c_col,
        Payload.act ("util.color_objs(\"(" ++ sele ++ ")\", palette=\"viridis\", _self=cmd)"))]

/-- The sentinel search loop of `_mol_color_patch`: the index of the
first entry whose label (second component) equals `'auto'`, if any. -/
def firstAutoIdx : List Entry → Option Nat
  | [] => none
  | e :: es => if e.2.1 = "auto" then some 0 else (firstAutoIdx es).map (· + 1)

/-- Python `list.insert(i, x)` semantics, including negative indices
(counted from the end, clamped at 0) and indices past the end (clamped at
the length). -/
def pyInsert {α : Type} (l : List α) (i : Int) (x : α) : List α :=
  let n : Nat := if i < 0 then (l.length + i).toNat else min i.toNat l.length
  l.take n ++ x :: l.drop n

/-- `_mol_color_patch(self_cmd, sele)`: `[]` when the captured original
is cleared; otherwise find the first `'auto'` entry of the original's
output (when absent, the python loop leaves `auto_menu_idx` unbound and
the subsequent read raises, modelled as an error) and insert the
composite viridis submenu entry at `auto_menu_idx - 1`. -/
def _mol_color_patch (orig : Option Builder) (self_cmd : SelfCmd) (sele : String) :
    Except String (List Entry) :=
  let viridis_col := _colorize_text "viridis" _viridis8_rgb
  match orig with
  | none => Except.ok []
  | some f =>
    match firstAutoIdx (f self_cmd sele) with
    | none => Except.error "UnboundLocalError: auto_menu_idx"
    | some i =>
      let r := f self_cmd sele
      Except.ok (pyInsert r ((i : Int) - 1) (1, viridis_col, Payload.sub (_viridis_menu self_cmd sele)))

/-! ## The patch / restore state machine (lines 84-116 and 259-339)

Host function slots are modelled symbolically: reference identity of
python function objects is equality of `Func` values.  Each call of
`patch_spectrum` creates a fresh wrapper closure, numbered by a counter. -/

/-- A python function object held in a host slot. -/
inductive Func where
  | host : Nat → Func
  | spectrumWrapper : Nat → Func
  | byChainPatch : Func
  | molColorPatch : Func
  | colorAutoPatch : Func
deriving DecidableEq

/-- The process-wide mutable state the plugin touches: the four host
slots, the palette registry, the host activation attribute
`menu.has_viridis_menus` (`none` when the attribute does not exist), the
host capability `pymol.menu.all_colors_list` (presence makes the
`import` probe succeed), the four module-level captured originals, and
the wrapper-freshness counter. -/
structure PatchState where
  cmd_spectrum : Func
  menu_by_chain : Func
  menu_mol_color : Func
  menu_color_auto : Func
  palette_reg : String → Option String
  has_viridis_menus : Option Bool
  hasAllColorsList : Bool
  orig_spectrum : Option Func
  orig_by_chain : Option Func
  orig_mol_color : Option Func
  orig_color_auto : Option Func
  counter : Nat

/-- `patch_spectrum()`: capture `cmd.spectrum` into `_original_spectrum`
only when the capture is empty, then install a fresh wrapper closure. -/
def patch_spectrum (s : PatchState) : PatchState :=
  let s1 := if s.orig_spectrum = none then { s with orig_spectrum := some s.cmd_spectrum } else s
  { s1 with cmd_spectrum := Func.spectrumWrapper s1.counter, counter := s1.counter + 1 }

/-- `unpatch_spectrum()`: restore the captured original when present and
clear the capture; a no-op otherwise. -/
def unpatch_spectrum (s : PatchState) : PatchState :=
  match s.orig_spectrum with
  | some f => { s with cmd_spectrum := f, orig_spectrum := none }
  | none => s

/-- `add_viridis_menus()`: early-return when the activation attribute is
present and true; install palettes when missing; patch spectrum; abort
before menu work when the host capability probe fails; capture each of
the three menu originals only when its capture is empty; install the
three menu wrappers; set the activation attribute true. -/
def add_viridis_menus (s : PatchState) : PatchState :=
  if s.has_viridis_menus = some true then s
  else
    let s1 := if _has_viridis_palettes s.palette_reg then s
              else { s with palette_reg := add_palettes s.palette_reg }
    let s2 := patch_spectrum s1
    if s2.hasAllColorsList then
      let s3 := if s2.orig_by_chain = none then { s2 with orig_by_chain := some s2.menu_by_chain } else s2
      let s4 := if s3.orig_mol_color = none then { s3 with orig_mol_color := some s3.menu_mol_color } else s3
      let s5 := if s4.orig_color_auto = none then { s4 with orig_color_auto := some s4.menu_color_auto } else s4
      { s5 with
        menu_by_chain := Func.byChainPatch,
        menu_mol_color := Func.molColorPatch,
        menu_color_auto := Func.colorAutoPatch,
        has_viridis_menus := some true }
    else s2

/-- `remove_viridis_menus()`: always unpatch spectrum first; return when
the activation attribute is absent or not true; abort when the host
capability probe fails; restore and clear each captured menu original;
set the activation attribute false. -/
def remove_viridis_menus (s : PatchState) : PatchState :=
  let s1 := unpatch_spectrum s
  if s1.has_viridis_menus = some true then
    if s1.hasAllColorsList then
      let s2 := match s1.orig_by_chain with
                | some f => { s1 with menu_by_chain := f, orig_by_chain := none }
                | none => s1
      let s3 := match s2.orig_mol_color with
                | some f => { s2 with menu_mol_color := f, orig_mol_color := none }
                | none => s2
      let s4 := match s3.orig_color_auto with
                | some f => { s3 with menu_color_auto := f, orig_color_auto := none }
                | none => s3
      { s4 with has_viridis_menus := some false }
    else s1
  else s1

/-! ## Concrete fixtures used by witnesses and counterexamples -/

/-- A host palette registry that already holds an entry named `viridis`
with a value of its own. -/
def regPre : String → Option String :=
  fun k => if k = "viridis" then some "OLD" else none

/-- A menu context with no user property keys. -/
def emptyCtx : SelfCmd := ⟨[]⟩

/-- An original menu builder whose output has its `auto` entry at index 1. -/
def autoSndBuilder : Builder :=
  fun _ _ => [(1, "x", Payload.act ""), (1, "auto", Payload.act "")]

/-- An original menu builder whose output has no `auto` entry. -/
def noAutoBuilder : Builder :=
  fun _ _ => [(1, "red", Payload.act "")]

/-- A fresh, unpatched host state on a host that passes the version
probe. -/
def s0 : PatchState :=
  { cmd_spectrum := Func.host 0
    menu_by_chain := Func.host 1
    menu_mol_color := Func.host 2
    menu_color_auto := Func.host 3
    palette_reg := fun _ => none
    has_viridis_menus := none
    hasAllColorsList := true
    orig_spectrum := none
    orig_by_chain := none
    orig_mol_color := none
    orig_color_auto := none
    counter := 0 }

/-- A host state in which all four originals are already captured. -/
def sCap : PatchState :=
  { s0 with
    orig_spectrum := some (Func.host 4)
    orig_by_chain := some (Func.host 5)
    orig_mol_color := some (Func.host 6)
    orig_color_auto := some (Func.host 7) }

/-! # Theorems -/

/-! ## Helper lemmas -/

theorem lookup_append_single (l : List (String × String)) (k v : String)
    (h : l.lookup k = none) : (l ++ [(k, v)]).lookup k = some v := by
  induction l with
  | nil => simp [List.lookup]
  | cons p es ih =>
    rw [List.lookup] at h
    rw [List.cons_append, List.lookup]
    cases hk : (k == p.1) with
    | true => rw [hk] at h; exact Option.noConfusion h
    | false => rw [hk] at h; exact ih h

theorem dictSet_of_absent (kw : List (String × String)) (k v : String)
    (h : kw.lookup k = none) : dictSet kw k v = kw ++ [(k, v)] := by
  simp [dictSet, h]

/-! ## Claim C1: the spectrum wrapper's forwarding behavior -/

/-- Claim C1: after activation the installed wrapper forwards to the
captured original; with fewer than 2 positional arguments and no
`palette` keyword it injects `palette='turbo'` as a keyword, and whenever
the caller supplies a palette explicitly (second positional argument or
`palette` keyword) the original receives exactly the caller's arguments,
unchanged. -/
theorem spectrum_wrapper_spec (args : List String) (kwargs : List (String × String)) :
    (args.length < 2 → kwargs.lookup "palette" = none →
      spectrum_wrapper args kwargs = (args, kwargs ++ [("palette", "turbo")]) ∧
      (spectrum_wrapper args kwargs).2.lookup "palette" = some "turbo") ∧
    (∀ x, kwargs.lookup "palette" = some x → spectrum_wrapper args kwargs = (args, kwargs)) ∧
    (2 ≤ args.length → spectrum_wrapper args kwargs = (args, kwargs)) := by
  refine ⟨fun h1 h2 => ?_, fun x hx => ?_, fun h => ?_⟩
  · have heq : spectrum_wrapper args kwargs = (args, kwargs ++ [("palette", "turbo")]) := by
      rw [spectrum_wrapper, if_pos ⟨h1, h2⟩, dictSet_of_absent kwargs _ _ h2]
    exact ⟨heq, by rw [heq]; exact lookup_append_single kwargs _ _ h2⟩
  · simp [spectrum_wrapper, hx]
  · simp [spectrum_wrapper, Nat.not_lt.mpr h]

/-- Witness for C1 at concrete inputs: one positional argument and no
palette keyword injects turbo; an explicit `palette='X'` keyword and an
explicit second positional argument `'X'` pass through unchanged. -/
theorem spectrum_wrapper_spec_witness :
    spectrum_wrapper ["count"] [] = (["count"], [("palette", "turbo")]) ∧
    spectrum_wrapper [] [("palette", "X")] = ([], [("palette", "X")]) ∧
    spectrum_wrapper ["count", "X"] [] = (["count", "X"], []) :=
  ⟨((spectrum_wrapper_spec ["count"] []).1 (by decide) rfl).1,
   (spectrum_wrapper_spec [] [("palette", "X")]).2.1 "X" rfl,
   (spectrum_wrapper_spec ["count", "X"] []).2.2 (by decide)⟩

/-! ## Claim C2: the viridis command (code bug) -/

/-- Claim C2 (code bug): `viridis` called with exactly one positional
argument executes `args_list[1] = 'viridis'` on a one-element list and
raises `IndexError` instead of forwarding to `cmd.spectrum` with palette
forced to `'viridis'` as the specification states. -/
theorem viridis_single_positional_raises :
    viridis ["count"] [] = Except.error "IndexError: list assignment index out of range" := rfl

/-! ## Claim C9: missing sentinel makes the mol-color wrapper fail -/

/-- Claim C9: when the original molecule-color builder's output contains
no entry labelled `auto`, the patched builder does not return normally:
the sentinel loop leaves `auto_menu_idx` unbound and the subsequent read
fails (modelled as the error result), rather than appending at the end
or skipping the insertion. -/
theorem mol_color_patch_no_sentinel_error (f : Builder) (c : SelfCmd) (sele : String)
    (h : firstAutoIdx (f c sele) = none) :
    _mol_color_patch (some f) c sele = Except.error "UnboundLocalError: auto_menu_idx" := by
  simp [_mol_color_patch, h]

/-- Witness for C9: a concrete original with no `auto` entry. -/
theorem mol_color_patch_no_sentinel_error_witness :
    _mol_color_patch (some noAutoBuilder) emptyCtx "sele"
      = Except.error "UnboundLocalError: auto_menu_idx" :=
  mol_color_patch_no_sentinel_error noAutoBuilder emptyCtx "sele" (by decide)

/-! ## Claim C10: wrappers with a cleared original return the empty list -/

/-- Claim C10: each of the three patched menu wrappers, invoked while its
captured original reference is cleared (`None`), returns the empty list
(for the mol-color wrapper: returns normally with the empty list) for
every context and selection, rather than raising or calling a stale
original. -/
theorem patched_wrappers_cleared_original_empty (c : SelfCmd) (sele : String) :
    _by_chain_patch none c sele = [] ∧
    _color_auto_patch none c sele = [] ∧
    _mol_color_patch none c sele = Except.ok [] :=
  ⟨rfl, rfl, rfl⟩

/-! ## Palette installation lemmas -/

theorem addPalettesLoop_not_mem (table : List (String × List String))
    (reg : String → Option String) (k : String)
    (h : k ∉ table.map Prod.fst) : addPalettesLoop table reg k = reg k := by
  induction table generalizing reg with
  | nil => rfl
  | cons p t ih =>
    simp only [List.map_cons, List.mem_cons, not_or] at h
    rw [show addPalettesLoop (p :: t) reg
        = addPalettesLoop t (fun k' => if k' = p.1 then some (format_colors p.2) else reg k')
      from rfl]
    rw [ih _ h.2]
    simp [h.1]

theorem addPalettesLoop_mem (table : List (String × List String))
    (reg : String → Option String) (k : String) (v : List String)
    (hnd : (table.map Prod.fst).Nodup) (h : (k, v) ∈ table) :
    addPalettesLoop table reg k = some (format_colors v) := by
  induction table generalizing reg with
  | nil => cases h
  | cons p t ih =>
    simp only [List.map_cons, List.nodup_cons] at hnd
    rcases List.mem_cons.mp h with heq | ht
    · cases heq
      rw [show addPalettesLoop ((k, v) :: t) reg
          = addPalettesLoop t (fun k' => if k' = k then some (format_colors v) else reg k')
        from rfl]
      rw [addPalettesLoop_not_mem t _ k (by simpa using hnd.1)]
      simp
    · rw [show addPalettesLoop (p :: t) reg
          = addPalettesLoop t (fun k' => if k' = p.1 then some (format_colors p.2) else reg k')
        from rfl]
      exact ih _ hnd.2 ht

/-! ## Claim C6: add_palettes and pre-existing registry entries -/

/-- Claim C6 counterexample: `add_palettes` run against a registry that
already holds an entry under the name `viridis` changes that entry's
value — the assignment in the loop is unconditional, there is no
not-already-a-key guard. -/
theorem add_palettes_overwrites_existing :
    add_palettes regPre "viridis" ≠ regPre "viridis" := by decide

/-- Claim C6 amended: `add_palettes` leaves unchanged every registry
entry whose name is not one of the palette-table names; an entry whose
name is in the table — pre-existing or not — is assigned the table's
formatted value unconditionally (so a pre-existing value under a table
name is overwritten, not preserved). -/
theorem add_palettes_frame_and_overwrite (reg : String → Option String) (k : String) :
    (k ∉ NEW_PALETTES.map Prod.fst → add_palettes reg k = reg k) ∧
    (∀ v, (k, v) ∈ NEW_PALETTES → add_palettes reg k = some (format_colors v)) :=
  ⟨fun h => addPalettesLoop_not_mem _ reg k h,
   fun v h => addPalettesLoop_mem _ reg k v (by decide) h⟩

/-- Witness for C6 amended: a non-table name keeps its (absent) value; a
pre-existing `viridis` entry is overwritten with the table value. -/
theorem add_palettes_frame_and_overwrite_witness :
    add_palettes regPre "rainbow" = regPre "rainbow" ∧
    add_palettes regPre "viridis"
      = some (format_colors ["#440154", "#482878", "#3E4989", "#31688E", "#26828E",
                             "#1F9E89", "#35B779", "#6DCD59", "#B4DE2C", "#FDE725"]) :=
  ⟨(add_palettes_frame_and_overwrite regPre "rainbow").1 (by decide),
   (add_palettes_frame_and_overwrite regPre "viridis").2
     ["#440154", "#482878", "#3E4989", "#31688E", "#26828E",
      "#1F9E89", "#35B779", "#6DCD59", "#B4DE2C", "#FDE725"] (by decide)⟩

/-! ## Claim C7: installed values and idempotence -/

/-- Claim C7: for every palette name of the static table, after
`add_palettes` the registry maps it to the space-joined color-stop
string with each leading `#` marker translated to `0x` (stated against
the independently defined spec-side `specFormat`), and a second
`add_palettes` leaves that value unchanged. -/
theorem add_palettes_installs_idempotent (reg : String → Option String)
    (P : String) (vals : List String) (h : (P, vals) ∈ NEW_PALETTES) :
    add_palettes reg P = some (specFormat vals) ∧
    add_palettes (add_palettes reg) P = add_palettes reg P := by
  have hnd : (NEW_PALETTES.map Prod.fst).Nodup := by decide
  have h1 : add_palettes reg P = some (format_colors vals) :=
    addPalettesLoop_mem _ reg P vals hnd h
  have h2 : add_palettes (add_palettes reg) P = some (format_colors vals) :=
    addPalettesLoop_mem _ _ P vals hnd h
  have hfmt : format_colors vals = specFormat vals := by
    simp only [NEW_PALETTES, List.mem_cons, List.not_mem_nil, or_false,
      Prod.mk.injEq] at h
    rcases h with ⟨rfl, rfl⟩ | ⟨rfl, rfl⟩ | ⟨rfl, rfl⟩ | ⟨rfl, rfl⟩ | ⟨rfl, rfl⟩ | ⟨rfl, rfl⟩ <;>
      decide
  exact ⟨hfmt ▸ h1, h2.trans h1.symm⟩

/-- Witness for C7 at the `viridis` entry of the table, starting from an
empty registry. -/
theorem add_palettes_installs_idempotent_witness :
    add_palettes (fun _ => none) "viridis"
      = some (specFormat ["#440154", "#482878", "#3E4989", "#31688E", "#26828E",
                          "#1F9E89", "#35B779", "#6DCD59", "#B4DE2C", "#FDE725"]) ∧
    add_palettes (add_palettes (fun _ => none)) "viridis"
      = add_palettes (fun _ => none) "viridis" :=
  add_palettes_installs_idempotent (fun _ => none) "viridis"
    ["#440154", "#482878", "#3E4989", "#31688E", "#26828E",
     "#1F9E89", "#35B779", "#6DCD59", "#B4DE2C", "#FDE725"] (by decide)

/-! ## Colorize length lemmas -/

theorem colorizeGo_length (pl : List String) (ts : List Char)
    (h3 : ∀ c ∈ pl, c.length = 3) (hle : pl.length ≤ ts.length) :
    (colorizeGo pl ts).length = ts.length + 4 * loopPref pl ts := by
  induction pl generalizing ts with
  | nil => simp [colorizeGo, loopPref]
  | cons c cs ih =>
    cases ts with
    | nil => simp at hle
    | cons t ts' =>
      by_cases hp : t = '('
      · rw [show colorizeGo (c :: cs) (t :: ts') = "\\888" ++ String.mk (t :: ts') from by
          rw [colorizeGo, if_pos hp]]
        rw [show loopPref (c :: cs) (t :: ts') = 1 from by rw [loopPref, if_pos hp]]
        rw [String.length_append]
        rw [show (String.mk (t :: ts')).length = ts'.length + 1 from rfl]
        rw [show ("\\888" : String).length = 4 from by decide]
        rw [show (t :: ts').length = ts'.length + 1 from rfl]
        omega
      · have hc : c.length = 3 := h3 c (by simp)
        have h3' : ∀ x ∈ cs, x.length = 3 := fun x hx => h3 x (List.mem_cons_of_mem _ hx)
        have hle' : cs.length ≤ ts'.length := by simpa using hle
        rw [show colorizeGo (c :: cs) (t :: ts')
            = "\\" ++ c ++ String.mk [t] ++ colorizeGo cs ts' from by
          rw [colorizeGo, if_neg hp]]
        rw [show loopPref (c :: cs) (t :: ts') = 1 + loopPref cs ts' from by
          rw [loopPref, if_neg hp]]
        rw [String.length_append, String.length_append, String.length_append]
        rw [ih ts' h3' hle']
        rw [show ("\\" : String).length = 1 from by decide]
        rw [hc]
        rw [show (String.mk [t]).length = 1 from rfl]
        rw [show (t :: ts').length = ts'.length + 1 from rfl]
        omega

theorem _colorize_text_length (text : String) (palette : List String)
    (h3 : ∀ c ∈ palette, c.length = 3) :
    (_colorize_text text palette).length
      = text.length + 4 * prefCount text palette + resetMarker.length := by
  have h3' : ∀ c ∈ (palette ++ ["888"]).take (min (palette.length + 1) text.toList.length),
      c.length = 3 := by
    intro c hc
    have hmem : c ∈ palette ++ ["888"] := List.take_subset _ _ hc
    rcases List.mem_append.mp hmem with h | h
    · exact h3 c h
    · simp only [List.mem_singleton] at h
      subst h
      rfl
  have hle : ((palette ++ ["888"]).take (min (palette.length + 1) text.toList.length)).length
      ≤ text.toList.length := by
    rw [List.length_take]
    exact le_trans (min_le_left _ _) (min_le_right _ _)
  rw [show (_colorize_text text palette)
      = colorizeGo ((palette ++ ["888"]).take (min (palette.length + 1) text.toList.length))
          text.toList ++ resetMarker from rfl]
  rw [String.length_append, colorizeGo_length _ _ h3' hle]
  rw [show text.toList.length = text.length from rfl]
  rw [show prefCount text palette
      = loopPref ((palette ++ ["888"]).take (min (palette.length + 1) text.toList.length))
          text.toList from rfl]
  rw [show text.toList.length = text.length from rfl]

/-! ## Claim C8: colorize output length -/

/-- Claim C8 counterexample: the raw length of
`colorize("abc", ["100","200","300"])` is 19 (three 4-character escape
codes, the three characters, and the 4-character reset marker), not
`len(text) + len(resetMarker)` = 7. -/
theorem colorize_length_counterexample :
    (_colorize_text "abc" ["100", "200", "300"]).length
      ≠ "abc".length + resetMarker.length := by decide

/-- Claim C8 amended: for every text and every color sequence of 3-digit
codes, the output length is `len(text) + 4*p + len(resetMarker)` where
`p` is the number of characters that receive an escape prefix (the color
sequence extended by the reset code and truncated to the text length,
cut short at the first `'('`); in particular
`colorize("abc", ["100","200","300"])` is the string
`\100a\200b\300c\888`, in which each of the 3 characters carries its
corresponding 3-digit prefix and which ends with the reset marker. -/
theorem colorize_length_and_example :
    (∀ (text : String) (palette : List String), (∀ c ∈ palette, c.length = 3) →
      (_colorize_text text palette).length
        = text.length + 4 * prefCount text palette + resetMarker.length) ∧
    _colorize_text "abc" ["100", "200", "300"] = "\\100a\\200b\\300c\\888" :=
  ⟨_colorize_text_length, by decide⟩

/-- Witness for C8 amended, at a text containing `'('`. -/
theorem colorize_length_and_example_witness :
    (_colorize_text "ab(c" ["100", "200", "300"]).length
      = "ab(c".length + 4 * prefCount "ab(c" ["100", "200", "300"] + resetMarker.length :=
  colorize_length_and_example.1 "ab(c" ["100", "200", "300"] (by decide)

/-! ## Claim C5: where the viridis entry is inserted -/

theorem firstAutoIdx_lt_length (l : List Entry) (i : Nat) (h : firstAutoIdx l = some i) :
    i < l.length := by
  induction l generalizing i with
  | nil => exact Option.noConfusion h
  | cons e es ih =>
    by_cases he : e.2.1 = "auto"
    · rw [firstAutoIdx, if_pos he] at h
      cases h
      simp
    · rw [firstAutoIdx, if_neg he] at h
      rcases Option.map_eq_some'.mp h with ⟨j, hj, hij⟩
      have := ih j hj
      simp only [List.length_cons]
      omega

/-- Claim C5 counterexample: with the original's `auto` entry at index 1,
the patched builder puts the viridis entry at index 0 — two slots before
the `auto` entry, with the entry `x` in between — not immediately before
the `auto` entry (shown on the label sequences of the outputs). -/
theorem mol_color_patch_not_adjacent_to_auto :
    (_mol_color_patch (some autoSndBuilder) emptyCtx "sel").toOption.map
        (List.map (fun e => e.2.1))
      = some [_colorize_text "viridis" _viridis8_rgb, "x", "auto"] ∧
    (_mol_color_patch (some autoSndBuilder) emptyCtx "sel").toOption.map
        (List.map (fun e => e.2.1))
      ≠ some ["x", _colorize_text "viridis" _viridis8_rgb, "auto"] := by
  constructor <;> decide

/-- Claim C5 amended: for every call in which the original
molecule-color builder's output has its first `auto`-labelled entry at
an index `i ≥ 1`, the patched builder returns the original's entries
with the composite viridis submenu entry inserted at index `i - 1` (one
position before the entry that precedes `auto`), all original entries
preserved in their order. -/
theorem mol_color_patch_insert_at_pred (f : Builder) (c : SelfCmd) (sele : String) (i : Nat)
    (hi : firstAutoIdx (f c sele) = some i) (h1 : 1 ≤ i) :
    _mol_color_patch (some f) c sele =
      Except.ok ((f c sele).take (i - 1)
        ++ (1, _colorize_text "viridis" _viridis8_rgb,
            Payload.sub (_viridis_menu c sele)) :: (f c sele).drop (i - 1)) := by
  have hlt := firstAutoIdx_lt_length _ _ hi
  rw [show _mol_color_patch (some f) c sele
      = (match firstAutoIdx (f c sele) with
         | none => Except.error "UnboundLocalError: auto_menu_idx"
         | some i =>
            Except.ok (pyInsert (f c sele) ((i : Int) - 1)
              (1, _colorize_text "viridis" _viridis8_rgb,
               Payload.sub (_viridis_menu c sele)))) from rfl]
  rw [hi]
  have hneg : ¬ ((i : Int) - 1 < 0) := by omega
  have htn : ((i : Int) - 1).toNat = i - 1 := by omega
  simp only [pyInsert, if_neg hneg, htn]
  rw [Nat.min_eq_left (by omega)]

/-- Witness for C5 amended: the concrete original with `auto` at index 1
receives the viridis entry at index 0. -/
theorem mol_color_patch_insert_at_pred_witness :
    _mol_color_patch (some autoSndBuilder) emptyCtx "sel" =
      Except.ok ((autoSndBuilder emptyCtx "sel").take 0
        ++ (1, _colorize_text "viridis" _viridis8_rgb,
            Payload.sub (_viridis_menu emptyCtx "sel"))
          :: (autoSndBuilder emptyCtx "sel").drop 0) :=
  mol_color_patch_insert_at_pred autoSndBuilder emptyCtx "sel" 1 (by decide) (by decide)

/-! ## State machine lemmas -/

theorem patch_spectrum_orig (s : PatchState) :
    (patch_spectrum s).orig_spectrum = some (s.orig_spectrum.getD s.cmd_spectrum) := by
  cases h : s.orig_spectrum <;> simp [patch_spectrum, h]

theorem add_viridis_menus_fields (s : PatchState) :
    (add_viridis_menus s).orig_spectrum
      = (if s.has_viridis_menus = some true then s.orig_spectrum
         else some (s.orig_spectrum.getD s.cmd_spectrum)) ∧
    (add_viridis_menus s).orig_by_chain
      = (if s.has_viridis_menus = some true ∨ ¬ s.hasAllColorsList then s.orig_by_chain
         else some (s.orig_by_chain.getD s.menu_by_chain)) ∧
    (add_viridis_menus s).orig_mol_color
      = (if s.has_viridis_menus = some true ∨ ¬ s.hasAllColorsList then s.orig_mol_color
         else some (s.orig_mol_color.getD s.menu_mol_color)) ∧
    (add_viridis_menus s).orig_color_auto
      = (if s.has_viridis_menus = some true ∨ ¬ s.hasAllColorsList then s.orig_color_auto
         else some (s.orig_color_auto.getD s.menu_color_auto)) ∧
    (add_viridis_menus s).has_viridis_menus
      = (if s.has_viridis_menus = some true ∨ ¬ s.hasAllColorsList then s.has_viridis_menus
         else some true) ∧
    (add_viridis_menus s).hasAllColorsList = s.hasAllColorsList := by
  by_cases hm : s.has_viridis_menus = some true
  · simp [add_viridis_menus, hm]
  · by_cases hp : _has_viridis_palettes s.palette_reg <;>
      by_cases hg : s.hasAllColorsList <;>
      cases hos : s.orig_spectrum <;>
      cases hobc : s.orig_by_chain <;>
      cases homc : s.orig_mol_color <;>
      cases hoca : s.orig_color_auto <;>
      simp [add_viridis_menus, patch_spectrum, hm, hp, hg, hos, hobc, homc, hoca]

/-! ## Claim C3: add then remove restores everything -/

/-- Claim C3: starting from an unpatched host state (no captured
originals, activation attribute not true) on a host passing the version
probe, `add_viridis_menus()` followed by `remove_viridis_menus()`
restores the spectrum command slot and all three menu-builder slots to
reference-identical pre-activation originals, and leaves
`menu.has_viridis_menus` false. -/
theorem add_remove_restores (s : PatchState)
    (h1 : s.orig_spectrum = none) (h2 : s.orig_by_chain = none)
    (h3 : s.orig_mol_color = none) (h4 : s.orig_color_auto = none)
    (h5 : s.has_viridis_menus ≠ some true) (h6 : s.hasAllColorsList = true) :
    (remove_viridis_menus (add_viridis_menus s)).cmd_spectrum = s.cmd_spectrum ∧
    (remove_viridis_menus (add_viridis_menus s)).menu_by_chain = s.menu_by_chain ∧
    (remove_viridis_menus (add_viridis_menus s)).menu_mol_color = s.menu_mol_color ∧
    (remove_viridis_menus (add_viridis_menus s)).menu_color_auto = s.menu_color_auto ∧
    (remove_viridis_menus (add_viridis_menus s)).has_viridis_menus = some false := by
  by_cases hp : _has_viridis_palettes s.palette_reg <;>
    simp [add_viridis_menus, remove_viridis_menus, patch_spectrum, unpatch_spectrum,
      hp, h1, h2, h3, h4, h5, h6]

/-- Witness for C3 at a concrete fresh host state. -/
theorem add_remove_restores_witness :
    (remove_viridis_menus (add_viridis_menus s0)).cmd_spectrum = s0.cmd_spectrum ∧
    (remove_viridis_menus (add_viridis_menus s0)).menu_by_chain = s0.menu_by_chain ∧
    (remove_viridis_menus (add_viridis_menus s0)).menu_mol_color = s0.menu_mol_color ∧
    (remove_viridis_menus (add_viridis_menus s0)).menu_color_auto = s0.menu_color_auto ∧
    (remove_viridis_menus (add_viridis_menus s0)).has_viridis_menus = some false :=
  add_remove_restores s0 rfl rfl rfl rfl (by decide) rfl

/-! ## Claim C4: no double capture -/

/-- Claim C4: calling `add_viridis_menus()` (or `patch_spectrum()`) twice
consecutively never overwrites a previously captured original — each
capture happens only while the stored original reference is still empty:
the captured references after the second call equal those after the
first call, and any already-captured original is preserved by a further
call. -/
theorem no_double_capture (s : PatchState) :
    ((patch_spectrum (patch_spectrum s)).orig_spectrum = (patch_spectrum s).orig_spectrum) ∧
    (∀ f, s.orig_spectrum = some f → (patch_spectrum s).orig_spectrum = some f) ∧
    ((add_viridis_menus (add_viridis_menus s)).orig_spectrum
      = (add_viridis_menus s).orig_spectrum) ∧
    ((add_viridis_menus (add_viridis_menus s)).orig_by_chain
      = (add_viridis_menus s).orig_by_chain) ∧
    ((add_viridis_menus (add_viridis_menus s)).orig_mol_color
      = (add_viridis_menus s).orig_mol_color) ∧
    ((add_viridis_menus (add_viridis_menus s)).orig_color_auto
      = (add_viridis_menus s).orig_color_auto) ∧
    (∀ f, s.orig_spectrum = some f → (add_viridis_menus s).orig_spectrum = some f) ∧
    (∀ f, s.orig_by_chain = some f → (add_viridis_menus s).orig_by_chain = some f) ∧
    (∀ f, s.orig_mol_color = some f → (add_viridis_menus s).orig_mol_color = some f) ∧
    (∀ f, s.orig_color_auto = some f → (add_viridis_menus s).orig_color_auto = some f) := by
  obtain ⟨a1, a2, a3, a4, a5, a6⟩ := add_viridis_menus_fields s
  obtain ⟨b1, b2, b3, b4, _, _⟩ := add_viridis_menus_fields (add_viridis_menus s)
  refine ⟨?_, ?_, ?_, ?_, ?_, ?_, ?_, ?_, ?_, ?_⟩
  · rw [patch_spectrum_orig (patch_spectrum s), patch_spectrum_orig s]
    simp
  · intro f hf
    rw [patch_spectrum_orig s, hf]
    rfl
  · rw [b1, a5, a1]
    by_cases hm : s.has_viridis_menus = some true <;> by_cases hg : s.hasAllColorsList <;>
      simp [hm, hg]
  · rw [b2, a5, a2, a6]
    by_cases hm : s.has_viridis_menus = some true <;> by_cases hg : s.hasAllColorsList <;>
      simp [hm, hg]
  · rw [b3, a5, a3, a6]
    by_cases hm : s.has_viridis_menus = some true <;> by_cases hg : s.hasAllColorsList <;>
      simp [hm, hg]
  · rw [b4, a5, a4, a6]
    by_cases hm : s.has_viridis_menus = some true <;> by_cases hg : s.hasAllColorsList <;>
      simp [hm, hg]
  · intro f hf
    rw [a1, hf]
    by_cases hm : s.has_viridis_menus = some true <;> simp [hm]
  · intro f hf
    rw [a2, hf]
    by_cases hc : s.has_viridis_menus = some true ∨ ¬ s.hasAllColorsList <;> simp [hc]
  · intro f hf
    rw [a3, hf]
    by_cases hc : s.has_viridis_menus = some true ∨ ¬ s.hasAllColorsList <;> simp [hc]
  · intro f hf
    rw [a4, hf]
    by_cases hc : s.has_viridis_menus = some true ∨ ¬ s.hasAllColorsList <;> simp [hc]

/-- Witness for C4 at a concrete state with all four originals already
captured: a further call preserves every captured reference. -/
theorem no_double_capture_witness :
    (patch_spectrum sCap).orig_spectrum = some (Func.host 4) ∧
    (add_viridis_menus sCap).orig_spectrum = some (Func.host 4) ∧
    (add_viridis_menus sCap).orig_by_chain = some (Func.host 5) ∧
    (add_viridis_menus sCap).orig_mol_color = some (Func.host 6) ∧
    (add_viridis_menus sCap).orig_color_auto = some (Func.host 7) := by
  obtain ⟨-, h2, -, -, -, -, h7, h8, h9, h10⟩ := no_double_capture sCap
  exact ⟨h2 _ rfl, h7 _ rfl, h8 _ rfl, h9 _ rfl, h10 _ rfl⟩

end ViridisPalettes
